import Mathlib

/-!
Verification of the ZarBox invoicing application (src/main.py).

The core logic of the application is embedded shallowly:
line items are 5-tuples `(name, price, quantity, unit, total)` built by
`add_item`, orders are dictionaries snapshotting the form, and the ledger
is the pair of lists `registered_orders` / `unregistered_orders`.
Finite Python floats are modelled by exact rationals (the "chosen
decimal representation"); numeric texts are parsed by `parsePyFloat`, a
model of Python's `float()` acceptance (underscored decimal literals and
the `inf`/`nan` spellings), with `parseFloat` its finite fragment.
-/

namespace ZarBox

/-- Error taxonomy of the spec; the source surfaces these as message boxes
(`QMessageBox.warning`) or as a raised `IndexError`. -/
inductive Err where
  | EmptyName
  | EmptyBuyerName
  | EmptySellerName
  | InvalidPhone
  | InvalidEmail
  | NoItems
  | InvalidNumber
  | IndexOutOfRange
  deriving DecidableEq, Repr

/-- One line item: the Python tuple `(name, price, quantity, unit, total)`
appended to `self.items` by `add_item` (src/main.py:973). -/
structure LineItem where
  name : String
  price : ℚ
  quantity : ℚ
  unit : String
  total : ℚ
  deriving DecidableEq, Repr

/-- An order: the dictionary built in `add_to_registered_orders`
(src/main.py:1034-1047), with `items` the snapshot of the form's item
list and `total` the stored sum. -/
structure Order where
  date : String
  seller_name : String
  seller_phone : String
  seller_email : String
  seller_address : String
  buyer_name : String
  buyer_phone : String
  buyer_address : String
  buyer_postal : String
  buyer_country : String
  items : List LineItem
  total : ℚ
  deriving DecidableEq, Repr

/-- The ledger: the pair of lists `self.registered_orders` and
`self.unregistered_orders` of `InvoiceApp`. -/
structure Ledger where
  registered : List Order
  unregistered : List Order
  deriving DecidableEq, Repr

/-! ### String helpers modelling Python string methods -/

/-- Model of Python `str.strip()`: remove leading and trailing whitespace. -/
def pyStrip (s : String) : String :=
  ⟨((s.data.dropWhile Char.isWhitespace).reverse.dropWhile Char.isWhitespace).reverse⟩

/-- Model of Python `s.replace(",", "")`: remove every comma. -/
def removeCommas (s : String) : String :=
  ⟨s.data.filter (fun c => c ≠ ',')⟩

/-- Split a character list at every occurrence of `c` (model of
`str.split` on a one-character separator, used for regex matching). -/
def splitOnChar (c : Char) : List Char → List (List Char)
  | [] => [[]]
  | x :: t =>
      if x = c then [] :: splitOnChar c t
      else
        match splitOnChar c t with
        | h :: r => (x :: h) :: r
        | [] => [[x]]

/-! ### Numeric parsing: a model of Python `float()` on string inputs -/

/-- Value of a list of ASCII digits read in base 10. -/
def digitsVal (ds : List Char) : Nat :=
  ds.foldl (fun a c => a * 10 + (c.toNat - 48)) 0

/-- Tail of an underscored digit group: digits in which every underscore
is followed (and, via `udigitsOK`, preceded) by a digit. -/
def udigitsTail : List Char → Bool
  | [] => true
  | '_' :: [] => false
  | '_' :: c :: rest => c.isDigit && udigitsTail rest
  | c :: rest => c.isDigit && udigitsTail rest

/-- A valid Python digit group: non-empty digits with optional single
underscores between digits (`1_000` is valid, `_1`, `1_`, `1__0` are
not), as accepted by `float()` since Python 3.6. -/
def udigitsOK : List Char → Bool
  | [] => false
  | c :: rest => c.isDigit && udigitsTail rest

/-- Value of an underscored digit group (underscores ignored). -/
def uval (cs : List Char) : Nat :=
  digitsVal (cs.filter (fun c => c ≠ '_'))

/-- Number of digits of an underscored digit group. -/
def ulen (cs : List Char) : Nat :=
  (cs.filter (fun c => c ≠ '_')).length

/-- A character that may occur inside a digit group. -/
def isUChar (c : Char) : Bool :=
  c.isDigit || c == '_'

/-- A whole underscored digit group, as a natural number. -/
def parseUDigits (cs : List Char) : Option Nat :=
  if udigitsOK cs then some (uval cs) else none

/-- Optionally signed digit group, as an integer. -/
def parseSignedDigits : List Char → Option Int
  | '+' :: rest => (parseUDigits rest).map (fun n => (n : Int))
  | '-' :: rest => (parseUDigits rest).map (fun n => -(n : Int))
  | rest => (parseUDigits rest).map (fun n => (n : Int))

/-- The exponent suffix of a float literal: empty, or `e`/`E` followed by an
optionally signed digit string. -/
def parseExpPart : List Char → Option Int
  | [] => some 0
  | 'e' :: rest => parseSignedDigits rest
  | 'E' :: rest => parseSignedDigits rest
  | _ => none

/-- Scale a rational by a signed power of ten. -/
def applyExp (q : ℚ) (e : Int) : ℚ :=
  if 0 ≤ e then q * (10 : ℚ) ^ e.toNat else q / (10 : ℚ) ^ (-e).toNat

/-- Shape of a recognised finite float literal: a negative-sign flag, the
integer digits, the fraction digits, the number of fraction digits, and
the exponent. -/
abbrev FloatRepr := Bool × Nat × Nat × Nat × Int

/-- Recogniser for the grammar of a finite decimal float literal accepted
by Python `float()` (optional sign, integer and/or fraction digit groups
with optional underscore separators, optional exponent), returning its
parts; `none` where `float()` raises `ValueError` or the literal is an
`inf`/`nan` spelling.  Digits are modelled as ASCII (as for the regexes). -/
def parseFloatRepr (cs0 : List Char) : Option FloatRepr :=
  let signAndRest : Bool × List Char :=
    match cs0 with
    | '+' :: t => (false, t)
    | '-' :: t => (true, t)
    | t => (false, t)
  let neg := signAndRest.1
  let cs := signAndRest.2
  let ip := cs.takeWhile isUChar
  let rest1 := cs.dropWhile isUChar
  match rest1 with
  | '.' :: t =>
      let fp := t.takeWhile isUChar
      let rest2 := t.dropWhile isUChar
      if (ip = [] ∧ fp = []) ∨ (ip ≠ [] ∧ udigitsOK ip = false) ∨
          (fp ≠ [] ∧ udigitsOK fp = false) then none
      else (parseExpPart rest2).map (fun e => (neg, uval ip, uval fp, ulen fp, e))
  | rest =>
      if ip = [] ∨ udigitsOK ip = false then none
      else (parseExpPart rest).map (fun e => (neg, uval ip, 0, 0, e))

/-- The rational value denoted by a recognised finite float literal. -/
def reprToRat : FloatRepr → ℚ
  | (neg, ip, fp, fl, e) =>
      applyExp ((if neg then (-1 : ℚ) else 1) * ((ip : ℚ) + (fp : ℚ) / (10 : ℚ) ^ fl)) e

/-- The values Python `float()` can produce from a string: a finite value
(exact rational, the spec's chosen decimal representation) or one of the
non-finite specials. -/
inductive PyFloat where
  | finite (q : ℚ)
  | inf
  | neginf
  | nan
  deriving DecidableEq, Repr

/-- Recogniser for the special spellings accepted by `float()`:
case-insensitive `inf`, `infinity` and `nan` with an optional sign
(`float('-nan')` is still NaN). -/
def parseSpecial (cs0 : List Char) : Option PyFloat :=
  let signAndRest : Bool × List Char :=
    match cs0 with
    | '+' :: t => (false, t)
    | '-' :: t => (true, t)
    | t => (false, t)
  let neg := signAndRest.1
  let ls := signAndRest.2.map Char.toLower
  if ls = "inf".data ∨ ls = "infinity".data then
    some (if neg then .neginf else .inf)
  else if ls = "nan".data then some .nan
  else none

/-- Full model of Python `float(s)` acceptance: a special spelling or a
finite decimal literal; `none` exactly where `float()` raises
`ValueError`. -/
def parsePyFloat (s : String) : Option PyFloat :=
  match parseSpecial s.data with
  | some v => some v
  | none => (parseFloatRepr s.data).map (fun r => .finite (reprToRat r))

/-- Model of the Python comparison `x <= 0` on a float parsed from a
string: NaN comparisons are `False`, so `nan` (and `inf`) pass the
source's positivity gate at src/main.py:965. -/
def PyFloat.le0 : PyFloat → Bool
  | .finite q => decide (q ≤ 0)
  | .inf => false
  | .neginf => true
  | .nan => false

/-- The finite fragment of `float(s)`: `some q` exactly when `float(s)`
yields the finite value `q`; `none` when `float()` raises `ValueError`
or yields a non-finite special (`inf`/`nan` spellings), which exact
rationals cannot represent. -/
def parseFloat (s : String) : Option ℚ :=
  match parsePyFloat s with
  | some (.finite q) => some q
  | _ => none

/-! ### Validation rules -/

/-- Model of `re.match(r'^09\d{9}$', s)`: the string is `09` followed by
exactly nine ASCII digits (src/main.py:947,949,599). -/
def phoneOK (s : String) : Bool :=
  match s.data with
  | '0' :: '9' :: rest => rest.length == 9 && rest.all Char.isDigit
  | _ => false

/-- A regex word character `\w` (ASCII): letter, digit or underscore. -/
def isWordChar (c : Char) : Bool :=
  c.isAlphanum || c == '_'

/-- A character of the class `[\w\.-]` in the email regex. -/
def isEmailChar (c : Char) : Bool :=
  isWordChar c || c == '.' || c == '-'

/-- Model of `re.match(r'^[\w\.-]+@[\w\.-]+\.\w+$', s)` (src/main.py:951):
exactly one `@`; a non-empty local part of word chars, dots and hyphens;
a domain whose maximal trailing run of word chars is non-empty and is
preceded by a dot with a non-empty prefix before it. -/
def emailOK (s : String) : Bool :=
  match splitOnChar '@' s.data with
  | [loc, dom] =>
      (!loc.isEmpty) && loc.all isEmailChar &&
      (let r := dom.reverse
       let tld := r.takeWhile isWordChar
       match r.drop tld.length with
       | '.' :: rest => (!tld.isEmpty) && (!rest.isEmpty) && rest.all isEmailChar
       | _ => false)
  | _ => false

/-! ### Line items: `add_item` -/

/-- Python `sum(f(x) for x in l)`: a left fold of `+` starting at `0`. -/
def sumBy {α : Type} (f : α → ℚ) (l : List α) : ℚ :=
  l.foldl (fun a x => a + f x) 0

/-- Model of `InvoiceApp.add_item` (src/main.py:955-979): strips the name,
rejects an empty name; parses the price text with commas removed and the
quantity text, rejecting unparseable or non-positive values; on success
builds the tuple `(name, price, quantity, unit, price*quantity)`.
Numeric texts are parsed with `parseFloat`, the finite fragment of
`float()`: on texts spelling `inf`/`nan` the source's `<= 0` gate
passes (see `PyFloat.le0`) and the real code appends a non-finite item,
contradicting the spec's positive-decimal data model; this embedding
follows the spec and rejects such texts with `InvalidNumber` — the
divergence is recorded as a code bug against claim C5. -/
def add_item (name priceText qtyText unit : String) : Except Err LineItem :=
  let n := pyStrip name
  if n = "" then .error .EmptyName
  else
    match parseFloat (pyStrip (removeCommas priceText)), parseFloat (pyStrip qtyText) with
    | some price, some qty =>
        if price ≤ 0 ∨ qty ≤ 0 then .error .InvalidNumber
        else .ok ⟨n, price, qty, unit, price * qty⟩
    | _, _ => .error .InvalidNumber

/-! ### Draft invoice: item list operations and the running total -/

/-- The operations that change the draft item list `self.items`:
`add_item`'s append (src/main.py:973) and `delete_item`'s pop at a
selected (hence valid) row (src/main.py:991). -/
inductive DraftOp where
  | append (it : LineItem)
  | removeAt (i : Nat)
  deriving DecidableEq, Repr

/-- Apply one draft operation; an invalid `removeAt` index leaves the list
unchanged (in the source it is unreachable: the row comes from the
selected widget item). -/
def applyOp (items : List LineItem) : DraftOp → List LineItem
  | .append it => items ++ [it]
  | .removeAt i => if i < items.length then items.eraseIdx i else items

/-- Apply a sequence of draft operations in order. -/
def applyOps (items : List LineItem) (ops : List DraftOp) : List LineItem :=
  ops.foldl applyOp items

/-- Model of `InvoiceApp.update_total` (src/main.py:1108-1111):
`sum(item[4] for item in self.items)`. -/
def update_total (items : List LineItem) : ℚ :=
  sumBy (fun it => it.total) items

/-! ### Form validation and order creation -/

/-- The invoice form's identity fields and item list. -/
structure FormState where
  seller_name : String
  seller_phone : String
  seller_email : String
  seller_address : String
  buyer_name : String
  buyer_phone : String
  buyer_address : String
  buyer_postal : String
  buyer_country : String
  items : List LineItem
  deriving DecidableEq, Repr

/-- Model of `InvoiceApp.validate_inputs` (src/main.py:941-953), with the
source's error messages mapped to the spec's taxonomy; `none` means the
checks passed. -/
def validate_inputs (f : FormState) : Option Err :=
  if pyStrip f.seller_name = "" then some .EmptySellerName
  else if pyStrip f.buyer_name = "" then some .EmptyBuyerName
  else if f.seller_phone ≠ "" ∧ phoneOK f.seller_phone = false then some .InvalidPhone
  else if f.buyer_phone ≠ "" ∧ phoneOK f.buyer_phone = false then some .InvalidPhone
  else if f.seller_email ≠ "" ∧ emailOK f.seller_email = false then some .InvalidEmail
  else none

/-- The order dictionary built by `add_to_registered_orders`
(src/main.py:1034-1047): raw field texts, a copy of the item list, and
the stored sum of line totals. -/
def mkOrder (f : FormState) (date : String) : Order where
  date := date
  seller_name := f.seller_name
  seller_phone := f.seller_phone
  seller_email := f.seller_email
  seller_address := f.seller_address
  buyer_name := f.buyer_name
  buyer_phone := f.buyer_phone
  buyer_address := f.buyer_address
  buyer_postal := f.buyer_postal
  buyer_country := f.buyer_country
  items := f.items
  total := sumBy (fun it => it.total) f.items

/-- Model of `InvoiceApp.add_to_registered_orders` (src/main.py:1022-1054):
validate the form, reject an empty item list, otherwise append the new
order to the registered list.  The returned ledger is unchanged on any
failure. -/
def add_to_registered_orders (f : FormState) (L : Ledger) (date : String) :
    Ledger × Option Err :=
  match validate_inputs f with
  | some e => (L, some e)
  | none =>
      if f.items = [] then (L, some .NoItems)
      else ({ L with registered := L.registered ++ [mkOrder f date] }, none)

/-! ### Ledger operations: edit and move -/

/-- The raw buyer texts entered in the edit dialog. -/
structure RawBuyer where
  name : String
  phone : String
  address : String
  postal : String
  country : String
  deriving DecidableEq, Repr

/-- Model of `EditOrderDialog.get_updated_order` (src/main.py:124-139):
the same date, seller fields, items and total as the original order, with
the buyer fields replaced by the stripped dialog texts. -/
def get_updated_order (o : Order) (b : RawBuyer) : Order :=
  { o with
    buyer_name := pyStrip b.name
    buyer_phone := pyStrip b.phone
    buyer_address := pyStrip b.address
    buyer_postal := pyStrip b.postal
    buyer_country := pyStrip b.country }

/-- Model of `InvoiceApp.edit_order` (src/main.py:587-609): pick the list
named by `isReg`, re-validate the updated buyer name and phone, and on
success overwrite the order at `row`. -/
def edit_order (L : Ledger) (isReg : Bool) (row : Nat) (b : RawBuyer) :
    Except Err Ledger :=
  let lst := if isReg then L.registered else L.unregistered
  match lst.get? row with
  | none => .error .IndexOutOfRange
  | some o =>
      let u := get_updated_order o b
      if pyStrip u.buyer_name = "" then .error .EmptyBuyerName
      else if u.buyer_phone ≠ "" ∧ phoneOK u.buyer_phone = false then .error .InvalidPhone
      else .ok (if isReg then { L with registered := L.registered.set row u }
                else { L with unregistered := L.unregistered.set row u })

/-- Model of Python `list.pop(i)` for a non-negative index: returns the
removed element and the remaining list, or raises `IndexError` when the
index is out of range (and then the list is not changed). -/
def listPop : List Order → Nat → Except Err (Order × List Order)
  | [], _ => .error .IndexOutOfRange
  | x :: t, 0 => .ok (x, t)
  | x :: t, n + 1 =>
      match listPop t n with
      | .ok (y, r) => .ok (y, x :: r)
      | .error e => .error e

/-- Model of `InvoiceApp.move_to_registered` (src/main.py:611-626):
`order = self.unregistered_orders.pop(row)` followed by
`self.registered_orders.append(order)`; the pop raises before the append
runs, so a failed pop changes neither list. -/
def move_to_registered (L : Ledger) (i : Nat) : Except Err Ledger :=
  match listPop L.unregistered i with
  | .error e => .error e
  | .ok (o, rest) => .ok ⟨L.registered ++ [o], rest⟩

/-! ### Persistence -/

/-- Exception classes that opening and unpickling the store can raise:
the three the source's except clause names, and two that escape it —
`ImportError` (e.g. `ModuleNotFoundError` from a corrupt pickle
referencing a missing class) and `OSError` (e.g. `PermissionError` from
`open` on an existing but unreadable file). -/
inductive PyExc where
  | unpicklingError
  | eofError
  | attributeError
  | importError
  | osError
  deriving DecidableEq, Repr

/-- Whether an exception is in the tuple caught by `load_data`'s
`except (pickle.UnpicklingError, EOFError, AttributeError)`
(src/main.py:166). -/
def caught : PyExc → Bool
  | .unpicklingError => true
  | .eofError => true
  | .attributeError => true
  | .importError => false
  | .osError => false

/-- Outcome of attempting to read the pickle store `orders.pkl`: the file
is absent, opening/unpickling it raises an exception, or it yields a
dictionary whose `registered` / `unregistered` keys may each be
missing. -/
inductive StoreRead where
  | absent
  | readFails (e : PyExc)
  | present (reg : Option (List Order)) (unreg : Option (List Order))
  deriving DecidableEq, Repr

/-- Model of `InvoiceApp.save_data` (src/main.py:170-179): write the full
dictionary `{registered: ..., unregistered: ...}` to the store. -/
def save_data (L : Ledger) : StoreRead :=
  .present (some L.registered) (some L.unregistered)

/-- Model of `InvoiceApp.load_data` (src/main.py:155-168): an absent store
or a read raising a caught exception yields two empty lists; a read
raising an uncaught exception propagates (`Except.error`) and fails
startup; from a well-formed store each list defaults to empty when its
key is missing (`data.get(..., [])`). -/
def load_data : StoreRead → Except PyExc Ledger
  | .absent => .ok ⟨[], []⟩
  | .readFails e => if caught e then .ok ⟨[], []⟩ else .error e
  | .present r u => .ok ⟨r.getD [], u.getD []⟩

/-! ### Statistics -/

/-- The four derived quantities displayed by the statistics tab. -/
structure Stats where
  registeredCount : Nat
  unregisteredCount : Nat
  totalRegisteredRevenue : ℚ
  averageRegisteredOrderValue : ℚ
  deriving DecidableEq, Repr

/-- Model of the computation in `InvoiceApp.update_statistics`
(src/main.py:523-528): counts of both lists,
`sum(sum(item[4] for item in order['items']) for order in registered)`,
and `total / count if count > 0 else 0`. -/
def update_statistics (L : Ledger) : Stats where
  registeredCount := L.registered.length
  unregisteredCount := L.unregistered.length
  totalRegisteredRevenue :=
    sumBy (fun o => sumBy (fun it => it.total) o.items) L.registered
  averageRegisteredOrderValue :=
    if 0 < L.registered.length then
      sumBy (fun o => sumBy (fun it => it.total) o.items) L.registered / L.registered.length
    else 0

/-! ### Sample data for concrete instantiations -/

/-- A concrete line item, as built by `add_item "Widget" "100000" "2" ...`. -/
def sampleItem : LineItem :=
  ⟨"Widget", 100000, 2, "x", 200000⟩

/-- A concrete order. -/
def sampleOrder1 : Order :=
  ⟨"2024/01/01", "S", "", "", "", "B", "", "", "", "", [sampleItem], 200000⟩

/-- A second concrete order, differing in the buyer name. -/
def sampleOrder2 : Order :=
  { sampleOrder1 with buyer_name := "C" }

/-- A concrete ledger with one registered and two unregistered orders. -/
def sampleLedger : Ledger :=
  ⟨[sampleOrder1], [sampleOrder1, sampleOrder2]⟩

/-- A concrete form whose identity fields validate and whose item list is
empty. -/
def sampleForm : FormState :=
  ⟨"S", "", "", "", "B", "", "", "", "", []⟩

/-! ### Helper lemmas -/

/-- Python's `sum` (a left fold from `0`) agrees with the mathematical sum
of the mapped values. -/
theorem foldl_add_eq {α : Type} (f : α → ℚ) :
    ∀ (l : List α) (a : ℚ), l.foldl (fun a x => a + f x) a = a + (l.map f).sum
  | [], a => by simp
  | x :: t, a => by
      simp [List.foldl_cons, foldl_add_eq f t, add_assoc]

/-- `sumBy` agrees with the mathematical sum of the mapped values. -/
theorem sumBy_eq_sum_map {α : Type} (f : α → ℚ) (l : List α) :
    sumBy f l = (l.map f).sum := by
  simpa [sumBy] using foldl_add_eq f l 0

/-- `listPop` at a valid index returns the indexed element and erases it. -/
theorem listPop_lt :
    ∀ (xs : List Order) (i : Nat) (h : i < xs.length),
      listPop xs i = .ok (xs.get ⟨i, h⟩, xs.eraseIdx i)
  | _ :: _, 0, _ => rfl
  | x :: t, n + 1, h => by
      have h' : n < t.length := Nat.lt_of_succ_lt_succ (by simpa using h)
      simp [listPop, listPop_lt t n h', List.eraseIdx]

/-- `listPop` at an out-of-range index raises `IndexOutOfRange`. -/
theorem listPop_ge :
    ∀ (xs : List Order) (i : Nat), xs.length ≤ i →
      listPop xs i = .error .IndexOutOfRange
  | [], _, _ => rfl
  | _ :: _, 0, h => by simp at h
  | x :: t, n + 1, h => by
      have h' : t.length ≤ n := Nat.le_of_succ_le_succ (by simpa using h)
      simp [listPop, listPop_ge t n h']

/-! ### Claim theorems -/

/-- Claim C1: for every ledger state, performing save followed by load
succeeds and yields a ledger equal to the original, order-for-order and
field-for-field. -/
theorem save_load_roundtrip (L : Ledger) : load_data (save_data L) = .ok L := rfl

/-- Claim C8, counterexample: a store whose read raises an exception
outside the caught tuple — e.g. `ImportError` from a corrupt pickle —
makes load propagate the exception and fail startup instead of
initializing two empty sequences. -/
theorem load_data_uncaught_crash :
    load_data (StoreRead.readFails PyExc.importError) = .error PyExc.importError ∧
    load_data (StoreRead.readFails PyExc.importError) ≠ .ok ⟨[], []⟩ :=
  ⟨rfl, fun h => Except.noConfusion h⟩

/-- Claim C8 as amended: an absent store, or a read raising one of the
caught exception classes (`UnpicklingError`, `EOFError`,
`AttributeError`), initializes the ledger to two empty sequences; a
well-formed store restores the stored sequences; but a read raising an
exception outside the caught tuple propagates and fails startup. -/
theorem load_data_caught_spec :
    load_data .absent = .ok ⟨[], []⟩ ∧
    (∀ e, caught e = true → load_data (.readFails e) = .ok ⟨[], []⟩) ∧
    (∀ e, caught e = false → load_data (.readFails e) = .error e) ∧
    (∀ r u, load_data (.present (some r) (some u)) = .ok ⟨r, u⟩) := by
  refine ⟨rfl, ?_, ?_, fun r u => rfl⟩
  · intro e he
    simp [load_data, he]
  · intro e he
    simp [load_data, he]

/-- Witness for claim C8 as amended: a caught `EOFError` degrades to the
empty ledger, an uncaught `OSError` propagates. -/
theorem load_data_caught_spec_witness :
    load_data (.readFails .eofError) = .ok ⟨[], []⟩ ∧
    load_data (.readFails .osError) = .error .osError :=
  ⟨load_data_caught_spec.2.1 .eofError rfl,
   load_data_caught_spec.2.2.1 .osError rfl⟩

/-- Claim C2: moving an unregistered order at a valid index removes it
there and appends it to the registered sequence, leaving all other
orders and their relative order unchanged; an invalid index fails with
`IndexOutOfRange` and changes neither sequence. -/
theorem move_to_registered_atomic (L : Ledger) (i : Nat) :
    (∀ h : i < L.unregistered.length,
      move_to_registered L i =
        .ok ⟨L.registered ++ [L.unregistered.get ⟨i, h⟩], L.unregistered.eraseIdx i⟩) ∧
    (L.unregistered.length ≤ i → move_to_registered L i = .error .IndexOutOfRange) := by
  constructor
  · intro h
    simp [move_to_registered, listPop_lt L.unregistered i h]
  · intro h
    simp [move_to_registered, listPop_ge L.unregistered i h]

/-- Witness for claim C2, at a two-element unregistered list: index 0
moves, index 5 fails. -/
theorem move_to_registered_atomic_witness :
    move_to_registered sampleLedger 0 =
      .ok ⟨sampleLedger.registered ++ [sampleLedger.unregistered.get ⟨0, by decide⟩],
           sampleLedger.unregistered.eraseIdx 0⟩ ∧
    move_to_registered sampleLedger 5 = .error .IndexOutOfRange :=
  ⟨(move_to_registered_atomic sampleLedger 0).1 (by decide),
   (move_to_registered_atomic sampleLedger 5).2 (by decide)⟩

/-- Claim C6: after any sequence of append and removeAt operations on the
draft item list, the displayed total equals the sum of the current
items' line totals, and the total of an empty list is 0. -/
theorem draft_total_spec (items : List LineItem) (ops : List DraftOp) :
    update_total (applyOps items ops) =
      ((applyOps items ops).map (fun it => it.total)).sum ∧
    update_total [] = 0 :=
  ⟨sumBy_eq_sum_map _ _, rfl⟩

/-- Claim C7: when the identity fields validate but the item list is
empty, registering the invoice fails with `NoItems` and the ledger is
unchanged. -/
theorem finalize_empty_items (f : FormState) (L : Ledger) (date : String)
    (hv : validate_inputs f = none) (hi : f.items = []) :
    add_to_registered_orders f L date = (L, some .NoItems) := by
  unfold add_to_registered_orders
  rw [hv]
  simp [hi]

/-- Witness for claim C7: a form with valid identity fields and no items. -/
theorem finalize_empty_items_witness :
    add_to_registered_orders sampleForm sampleLedger "2024/01/01" =
      (sampleLedger, some .NoItems) :=
  finalize_empty_items sampleForm sampleLedger "2024/01/01" (by decide) rfl

/-- Claim C9: the statistics are the two list lengths, the sum over
registered orders of their items' line totals, and that sum divided by
the registered count (0 when the count is 0). -/
theorem update_statistics_spec (L : Ledger) :
    (update_statistics L).registeredCount = L.registered.length ∧
    (update_statistics L).unregisteredCount = L.unregistered.length ∧
    (update_statistics L).totalRegisteredRevenue =
      (L.registered.map (fun o => (o.items.map (fun it => it.total)).sum)).sum ∧
    (update_statistics L).averageRegisteredOrderValue =
      (if 0 < L.registered.length then
        (L.registered.map (fun o => (o.items.map (fun it => it.total)).sum)).sum /
          L.registered.length
       else 0) := by
  refine ⟨rfl, rfl, ?_, ?_⟩
  · simp [update_statistics, sumBy_eq_sum_map]
  · simp [update_statistics, sumBy_eq_sum_map]

/-- Claim C3: editing at a valid position builds a new order with the same
date, seller fields, items and total but the updated (stripped) buyer
fields; with a non-empty buyer name and an empty or pattern-matching
phone it replaces the order at that position, and with a non-empty
non-matching phone it fails with `InvalidPhone` leaving the ledger
unchanged. -/
theorem edit_order_spec (L : Ledger) (isReg : Bool) (row : Nat) (b : RawBuyer)
    (o : Order) (ho : (if isReg then L.registered else L.unregistered).get? row = some o) :
    ((get_updated_order o b).date = o.date ∧
     (get_updated_order o b).seller_name = o.seller_name ∧
     (get_updated_order o b).seller_phone = o.seller_phone ∧
     (get_updated_order o b).seller_email = o.seller_email ∧
     (get_updated_order o b).seller_address = o.seller_address ∧
     (get_updated_order o b).items = o.items ∧
     (get_updated_order o b).total = o.total ∧
     (get_updated_order o b).buyer_name = pyStrip b.name ∧
     (get_updated_order o b).buyer_phone = pyStrip b.phone) ∧
    (pyStrip (pyStrip b.name) ≠ "" → (pyStrip b.phone = "" ∨ phoneOK (pyStrip b.phone) = true) →
      edit_order L isReg row b =
        .ok (if isReg then { L with registered := L.registered.set row (get_updated_order o b) }
             else { L with unregistered := L.unregistered.set row (get_updated_order o b) })) ∧
    (pyStrip (pyStrip b.name) ≠ "" → pyStrip b.phone ≠ "" → phoneOK (pyStrip b.phone) = false →
      edit_order L isReg row b = .error .InvalidPhone) := by
  refine ⟨⟨rfl, rfl, rfl, rfl, rfl, rfl, rfl, rfl, rfl⟩, ?_, ?_⟩
  · intro hname hphone
    have hcond : ¬(pyStrip b.phone ≠ "" ∧ phoneOK (pyStrip b.phone) = false) := by
      rintro ⟨h1, h2⟩
      rcases hphone with he | ht
      · exact h1 he
      · rw [ht] at h2
        exact Bool.noConfusion h2
    simp only [edit_order, ho, get_updated_order]
    rw [if_neg hname, if_neg hcond]
  · intro hname hph hpf
    simp only [edit_order, ho, get_updated_order]
    rw [if_neg hname, if_pos ⟨hph, hpf⟩]

/-- Witness for claim C3: editing the first unregistered order of the
sample ledger with buyer name `Ali` and an empty phone succeeds. -/
theorem edit_order_spec_witness :
    edit_order sampleLedger false 0 ⟨"Ali", "", "", "", ""⟩ =
      .ok { sampleLedger with
            unregistered := sampleLedger.unregistered.set 0
              (get_updated_order sampleOrder1 ⟨"Ali", "", "", "", ""⟩) } :=
  (edit_order_spec sampleLedger false 0 ⟨"Ali", "", "", "", ""⟩ sampleOrder1
      (by decide)).2.1 (by decide) (Or.inl (by decide))

/-- Claim C4: for a name that strips to non-empty and price and quantity
texts that parse (after comma removal in the price) to strictly positive
values, `add_item` returns the line item whose line total is exactly
`price * quantity`. -/
theorem add_item_success (name ptext qtext unit : String) (p q : ℚ)
    (hn : pyStrip name ≠ "")
    (hp : parseFloat (pyStrip (removeCommas ptext)) = some p) (hp0 : 0 < p)
    (hq : parseFloat (pyStrip qtext) = some q) (hq0 : 0 < q) :
    add_item name ptext qtext unit = .ok ⟨pyStrip name, p, q, unit, p * q⟩ := by
  have hnle : ¬(p ≤ 0 ∨ q ≤ 0) := by
    rintro (hh | hh)
    · exact absurd hp0 (not_lt.mpr hh)
    · exact absurd hq0 (not_lt.mpr hh)
  simp [add_item, hn, hp, hq, hnle]

/-- Witness for claim C4: `add_item "Widget" "1,000" "2" "x"` yields the
item with line total `2000`. -/
theorem add_item_success_witness :
    add_item "Widget" "1,000" "2" "x" = .ok ⟨pyStrip "Widget", 1000, 2, "x", 1000 * 2⟩ :=
  add_item_success "Widget" "1,000" "2" "x" 1000 2 (by decide)
    (by
      have hs : parseSpecial (pyStrip (removeCommas "1,000")).data = none := by decide
      have h : parseFloatRepr (pyStrip (removeCommas "1,000")).data =
          some (false, 1000, 0, 0, 0) := by decide
      simp [parseFloat, parsePyFloat, hs, h, reprToRat, applyExp])
    (by norm_num)
    (by
      have hs : parseSpecial (pyStrip "2").data = none := by decide
      have h : parseFloatRepr (pyStrip "2").data = some (false, 2, 0, 0, 0) := by decide
      simp [parseFloat, parsePyFloat, hs, h, reprToRat, applyExp])
    (by norm_num)

/-- The parser model matches `float()` on underscore-grouped literals:
`float('1_000') == 1000.0`. -/
theorem parseFloat_underscores : parseFloat "1_000" = some 1000 := by
  have hs : parseSpecial "1_000".data = none := by decide
  have h : parseFloatRepr "1_000".data = some (false, 1000, 0, 0, 0) := by decide
  simp [parseFloat, parsePyFloat, hs, h, reprToRat, applyExp]

/-- Claim C5, divergence at the failing input: the texts `nan` and `inf`
are accepted by `float()` although they denote no (finite, positive)
decimal value — `parseFloat` yields no rational for them — and they pass
the source's positivity gate because `nan <= 0` and `inf <= 0` are both
`False`, so `add_item` in the source appends a non-finite line item
where the spec requires an `InvalidNumber` failure. -/
theorem add_item_nan_gate :
    parsePyFloat "nan" = some PyFloat.nan ∧
    parsePyFloat "inf" = some PyFloat.inf ∧
    PyFloat.le0 PyFloat.nan = false ∧
    PyFloat.le0 PyFloat.inf = false ∧
    parseFloat "nan" = none ∧
    parseFloat "inf" = none := by
  refine ⟨by decide, by decide, rfl, rfl, by decide, by decide⟩

/-- Claim C10: commas are stripped only from the price text: a quantity
text `"1,000"` makes `add_item` fail with `InvalidNumber`, while the
same digits without the comma succeed. -/
theorem quantity_comma_rejected (name ptext unit : String) (p : ℚ)
    (hn : pyStrip name ≠ "")
    (hp : parseFloat (pyStrip (removeCommas ptext)) = some p) (hp0 : 0 < p) :
    add_item name ptext "1,000" unit = .error .InvalidNumber ∧
    add_item name ptext "1000" unit = .ok ⟨pyStrip name, p, 1000, unit, p * 1000⟩ := by
  constructor
  · have hq : parseFloat (pyStrip "1,000") = none := by decide
    simp [add_item, hn, hp, hq]
  · have hq : parseFloat (pyStrip "1000") = some 1000 := by
      have hs : parseSpecial (pyStrip "1000").data = none := by decide
      have h : parseFloatRepr (pyStrip "1000").data = some (false, 1000, 0, 0, 0) := by decide
      simp [parseFloat, parsePyFloat, hs, h, reprToRat, applyExp]
    have hnle : ¬(p ≤ 0 ∨ (1000 : ℚ) ≤ 0) := by
      rintro (hh | hh)
      · exact absurd hp0 (not_lt.mpr hh)
      · norm_num at hh
    simp [add_item, hn, hp, hq, hnle]

/-- Witness for claim C10 at name `x` and price text `5`. -/
theorem quantity_comma_rejected_witness :
    add_item "x" "5" "1,000" "u" = .error .InvalidNumber ∧
    add_item "x" "5" "1000" "u" = .ok ⟨pyStrip "x", 5, 1000, "u", 5 * 1000⟩ :=
  quantity_comma_rejected "x" "5" "u" 5 (by decide)
    (by
      have hs : parseSpecial (pyStrip (removeCommas "5")).data = none := by decide
      have h : parseFloatRepr (pyStrip (removeCommas "5")).data =
          some (false, 5, 0, 0, 0) := by decide
      simp [parseFloat, parsePyFloat, hs, h, reprToRat, applyExp])
    (by norm_num)

end ZarBox
